import Mathlib

/-!
Verification of the FocusSphere client protocol logic.

The definitions below are a shallow embedding of the client-side
coordination code in `src/frontend/src/App.jsx` (chat delivery and the
invitation workflow) and `src/frontend/src/PomodoroTimer.jsx` (the
synchronized countdown timer).  React `useState` cells become fields of
explicit state records, event handlers become pure state-transition
functions, and `socket.emit` calls become returned event values.
JavaScript `null`/`undefined` fields are modelled with `Option`, and the
places where the source relies on JavaScript truthiness (where `0` and
the empty string are falsy) are modelled explicitly and noted.
-/

namespace FocusSphere

/-! ## Chat messages (App.jsx) -/

/-- A chat message as stored in the `messages` state array: an id string
(server-assigned, or `temp_<timestamp>` for the optimistic local copy),
a sender display name and the text. -/
structure ChatMessage where
  id : String
  sender : String
  text : String
deriving DecidableEq, Repr

/-- The `receive_message` socket handler (App.jsx lines 637-652): the
incoming message is appended to the list unless some message with the
same id is already present, in which case the list is returned
unchanged. -/
def receiveMessage (prevMessages : List ChatMessage) (messageData : ChatMessage) :
    List ChatMessage :=
  if prevMessages.any (fun msg => msg.id == messageData.id) then prevMessages
  else prevMessages ++ [messageData]

/-- The payload of a `send_message` emit. -/
structure SendMessageEvent where
  room_id : String
  text : String
deriving DecidableEq, Repr

/-- JavaScript truthiness of the `sessionRoom` state used by the guard
`!sessionRoom`: the value is falsy when it is null/undefined or the
empty string. -/
def sessionRoomFalsy : Option String → Bool
  | none => true
  | some r => r == ""

/-- JavaScript `String.prototype.trim()`: strips leading and trailing
whitespace, modelled over the string's character list. -/
def jsTrim (s : String) : String :=
  { data := ((s.data.dropWhile Char.isWhitespace).reverse.dropWhile
      Char.isWhitespace).reverse }

/-- `handleSendMessage` (App.jsx lines 1525-1551): when the trimmed text
is nonempty and a session room is set, an optimistic local copy with id
`temp_<Date.now()>` and sender `"You"` is appended to the message list
and a `send_message` event is emitted; otherwise nothing happens.  The
`now` argument stands for `Date.now()`. -/
def handleSendMessage (messages : List ChatMessage) (newMessage : String)
    (sessionRoom : Option String) (now : Nat) :
    List ChatMessage × Option SendMessageEvent :=
  if jsTrim newMessage == "" || sessionRoomFalsy sessionRoom then
    (messages, none)
  else
    let messageText := jsTrim newMessage
    let tempMessage : ChatMessage :=
      { id := "temp_" ++ toString now, sender := "You", text := messageText }
    (messages ++ [tempMessage],
     some { room_id := sessionRoom.getD "", text := messageText })

/-! ## Pomodoro timer (PomodoroTimer.jsx) -/

/-- Timer mode; the source uses the strings `'pomodoro'`, `'short'` and
`'long'`. -/
inductive Mode
  | pomodoro
  | short
  | long
deriving DecidableEq, Repr

/-- One entry of `TIMER_PRESETS`: a display name and a duration in
seconds, where `time: null` (the Custom entry) is `none`. -/
structure Preset where
  name : String
  time : Option Nat
deriving DecidableEq, Repr

/-- The `TIMER_PRESETS` table (PomodoroTimer.jsx lines 9-26). -/
def TIMER_PRESETS : Mode → List Preset
  | .pomodoro =>
      [{ name := "Classic", time := some (25 * 60) },
       { name := "Short", time := some (15 * 60) },
       { name := "Long", time := some (45 * 60) },
       { name := "Custom", time := none }]
  | .short =>
      [{ name := "Quick", time := some (3 * 60) },
       { name := "Standard", time := some (5 * 60) },
       { name := "Extended", time := some (10 * 60) }]
  | .long =>
      [{ name := "Short", time := some (10 * 60) },
       { name := "Standard", time := some (15 * 60) },
       { name := "Extended", time := some (30 * 60) }]

/-- A record with one value per mode, modelling the JavaScript objects
`{pomodoro: _, short: _, long: _}` used for `customDurations` and
`selectedPreset`. -/
structure ModeMap (α : Type) where
  pomodoro : α
  short : α
  long : α
deriving DecidableEq, Repr

/-- Property access `m[mode]` on a per-mode object. -/
def ModeMap.get {α : Type} (m : ModeMap α) : Mode → α
  | .pomodoro => m.pomodoro
  | .short => m.short
  | .long => m.long

/-- The `useState` cells of the `PomodoroTimer` component that the timer
logic reads and writes (PomodoroTimer.jsx lines 82-94).  Purely visual
state (settings panel, motivational message, session goal) is omitted. -/
structure TimerState where
  timeRemaining : Nat
  isRunning : Bool
  mode : Mode
  hasCompletedPomodoro : Bool
  pomodoroCount : Nat
  autoStartBreaks : Bool
  customDurations : ModeMap Nat
  selectedPreset : ModeMap Nat
deriving DecidableEq, Repr

/-- Default timer settings (PomodoroTimer.jsx lines 4-6). -/
def DEFAULT_POMODORO_TIME : Nat := 25 * 60

/-- Default short-break duration. -/
def DEFAULT_SHORT_BREAK_TIME : Nat := 5 * 60

/-- Default long-break duration. -/
def DEFAULT_LONG_BREAK_TIME : Nat := 15 * 60

/-- The initial component state (the `useState` initial values). -/
def initialTimerState : TimerState :=
  { timeRemaining := DEFAULT_POMODORO_TIME
    isRunning := false
    mode := .pomodoro
    hasCompletedPomodoro := false
    pomodoroCount := 0
    autoStartBreaks := true
    customDurations :=
      { pomodoro := DEFAULT_POMODORO_TIME
        short := DEFAULT_SHORT_BREAK_TIME
        long := DEFAULT_LONG_BREAK_TIME }
    selectedPreset := { pomodoro := 0, short := 1, long := 1 } }

/-- The lookup `TIMER_PRESETS[m][selectedPreset[m]]` followed by
`if (preset && preset.time !== null) preset.time else customDurations[m]`:
an out-of-range index yields `undefined` (here `none`) and falls back to
the custom duration, as does the Custom preset whose `time` is null.
This computation appears verbatim in `getCurrentDuration`,
`handleSetMode` and the reset fallback of `handleTimerUpdate`. -/
def presetOrCustom (s : TimerState) (m : Mode) : Nat :=
  match (TIMER_PRESETS m)[s.selectedPreset.get m]? with
  | some preset =>
      match preset.time with
      | some t => t
      | none => s.customDurations.get m
  | none => s.customDurations.get m

/-- `getCurrentDuration` (PomodoroTimer.jsx lines 100-106): the full
canonical duration for the current mode under its selected preset,
falling back to the custom duration. -/
def getCurrentDuration (s : TimerState) : Nat :=
  presetOrCustom s s.mode

/-- The payload of a `timer_action` emit (PomodoroTimer.jsx lines
279-284). -/
structure TimerActionEvent where
  room_id : String
  action : String
  time : Nat
  mode : Mode
deriving DecidableEq, Repr

/-- `sendTimerAction` (PomodoroTimer.jsx lines 276-285): the emitted
time is `newTime` when that argument is not null/undefined, otherwise
the current `timeRemaining`. -/
def sendTimerAction (s : TimerState) (room : String) (action : String)
    (newTime : Option Nat) (newMode : Mode) : TimerActionEvent :=
  { room_id := room
    action := action
    time := newTime.getD s.timeRemaining
    mode := newMode }

/-- `handleStartPause` (PomodoroTimer.jsx lines 287-293): emits `pause`
when running, otherwise `start` carrying the current remaining time.
It changes no local state itself. -/
def handleStartPause (s : TimerState) (room : String) : TimerActionEvent :=
  if s.isRunning then sendTimerAction s room "pause" none s.mode
  else sendTimerAction s room "start" (some s.timeRemaining) s.mode

/-- `handleReset` (PomodoroTimer.jsx lines 295-306): computes the full
duration for the current mode, resets the local clock to it and stops
it, and emits a `reset` action carrying exactly that duration. -/
def handleReset (s : TimerState) (room : String) : TimerState × TimerActionEvent :=
  let resetTime := getCurrentDuration s
  ({ s with timeRemaining := resetTime, isRunning := false },
   sendTimerAction s room "reset" (some resetTime) s.mode)

/-- `handleSkip` (PomodoroTimer.jsx lines 308-311): emits a `skip`
action with time 0 and the current mode; the local state is left for
the countdown loop to complete naturally. -/
def handleSkip (s : TimerState) (room : String) : TimerActionEvent :=
  sendTimerAction s room "skip" (some 0) s.mode

/-- The payload of a received `timer_update` event; `time` and `mode`
may be absent (null/undefined). -/
structure TimerUpdate where
  action : String
  time : Option Nat
  mode : Option Mode
deriving DecidableEq, Repr

/-- The JavaScript expression `data.time || timeRemaining` in the
`start` case: both a null/undefined time and a time of `0` are falsy,
so both fall back to the local `timeRemaining`. -/
def jsOrTime (t : Option Nat) (fallback : Nat) : Nat :=
  match t with
  | some n => if n == 0 then fallback else n
  | none => fallback

/-- `handleTimerUpdate` (PomodoroTimer.jsx lines 216-264), the
`timer_update` socket handler, as a state transition.  In the `reset`
case, `if (data.mode && data.mode !== mode) setMode(data.mode)` leaves
the mode equal to `data.mode` whenever one is carried (setting it only
when it differs changes nothing when it is equal), i.e. the mode becomes
`data.mode.getD s.mode`.  In the `set_mode` case the source assigns
`data.time` directly; every in-repo sender passes a number there, and an
absent time is modelled as keeping the previous value. -/
def handleTimerUpdate (data : TimerUpdate) (s : TimerState) : TimerState :=
  if data.action == "start" then
    { s with timeRemaining := jsOrTime data.time s.timeRemaining, isRunning := true }
  else if data.action == "pause" then
    { s with isRunning := false }
  else if data.action == "reset" then
    let targetMode := data.mode.getD s.mode
    let resetTime :=
      match data.time with
      | some t => t
      | none => presetOrCustom s targetMode
    { s with mode := targetMode, timeRemaining := resetTime, isRunning := false }
  else if data.action == "skip" then
    { s with timeRemaining := 0, isRunning := true }
  else if data.action == "set_mode" then
    { s with timeRemaining := data.time.getD s.timeRemaining
             mode := data.mode.getD s.mode
             isRunning := false }
  else s

/-- The state effect of `handleSetMode(newMode, silent)` (PomodoroTimer.jsx
lines 313-332): picks the preset-or-custom duration for the new mode,
clears `hasCompletedPomodoro` when switching to pomodoro, and sets the
mode and remaining time.  With `silent = true` (the auto-advance calls)
no event is emitted, so the state effect is all there is. -/
def handleSetModeSilent (s : TimerState) (newMode : Mode) : TimerState :=
  let newTime := presetOrCustom s newMode
  { s with
    hasCompletedPomodoro :=
      if newMode == Mode.pomodoro then false else s.hasCompletedPomodoro
    mode := newMode
    timeRemaining := newTime }

/-- The completion branch of the countdown effect (PomodoroTimer.jsx
lines 164-208), entered when `isRunning && timeRemaining === 0`: the
clock stops; on pomodoro completion the count increments and, with
auto-start enabled, the mode auto-advances to the long break exactly
when the new count is a multiple of 4 and to the short break otherwise
(via `handleSetMode(breakMode, true)`); on break completion, auto-start
switches back to pomodoro.  The `pomodoro_completed` emit, notification
and sound, and the follow-up `handleStartPause()` emit carry no local
state change and are omitted. -/
def timerComplete (s : TimerState) : TimerState :=
  let s1 := { s with isRunning := false }
  if s.mode == Mode.pomodoro then
    let newCount := s.pomodoroCount + 1
    let s2 := { s1 with pomodoroCount := newCount, hasCompletedPomodoro := true }
    if s.autoStartBreaks then
      let breakMode := if newCount % 4 == 0 then Mode.long else Mode.short
      handleSetModeSilent s2 breakMode
    else s2
  else
    if s.autoStartBreaks then handleSetModeSilent s1 Mode.pomodoro
    else s1

/-- One evaluation of the countdown effect (PomodoroTimer.jsx lines
147-211): while running with time left, one interval tick decrements
the clock; running at zero triggers the completion branch; otherwise
nothing happens. -/
def countdownStep (s : TimerState) : TimerState :=
  if s.isRunning && decide (0 < s.timeRemaining) then
    { s with timeRemaining := s.timeRemaining - 1 }
  else if s.isRunning && s.timeRemaining == 0 then
    timerComplete s
  else s

/-! ## Invitations (App.jsx) -/

/-- The `outgoingInvite` state value set by `handleSendInvite`. -/
structure OutgoingInvite where
  invitee_user_id : Nat
  invitee_name : String
deriving DecidableEq, Repr

/-- The `useState` cells of the outgoing-invitation workflow in `App`:
the pending outgoing invite (or null), its countdown timer, and the
status message line. -/
structure InviteState where
  outgoingInvite : Option OutgoingInvite
  outgoingInviteTimer : Nat
  message : String
deriving DecidableEq, Repr

/-- The rejection message shown when an invite is already pending. -/
def alreadyPendingMessage : String :=
  "You already have a pending invitation. Please wait for a response."

/-- Result of a `handleSendInvite` call: the new state and whether the
`POST /api/match/invite` request was performed at all. -/
structure SendInviteResult where
  state : InviteState
  requestSent : Bool
deriving DecidableEq, Repr

/-- `handleSendInvite` (App.jsx lines 1345-1380): with an outgoing
invite already pending, the call sets the already-pending message and
returns without issuing the API request or touching the invite state;
otherwise the request is made and, on success (`apiSuccess`), the
outgoing invite is recorded and its timer set to 15, while on failure
only an error message is set.  The name fallback mirrors
`inviteeName || 'User <id>'` (empty string falsy). -/
def handleSendInvite (s : InviteState) (inviteeUserId : Nat) (inviteeName : String)
    (apiSuccess : Bool) (apiErrorMsg : String) : SendInviteResult :=
  if s.outgoingInvite.isSome then
    { state := { s with message := alreadyPendingMessage }, requestSent := false }
  else if apiSuccess then
    { state :=
        { s with
          outgoingInvite := some
            { invitee_user_id := inviteeUserId
              invitee_name :=
                if inviteeName == "" then "User " ++ toString inviteeUserId
                else inviteeName }
          outgoingInviteTimer := 15
          message := "Invitation sent! Waiting for response..." }
      requestSent := true }
  else
    { state := { s with message := "Error: " ++ apiErrorMsg }, requestSent := true }

/-- The `invite_declined` socket handler (App.jsx lines 607-612):
clears the outgoing invite, resets its countdown to 15 and sets the
declined message. -/
def inviteDeclinedHandler (s : InviteState) : InviteState :=
  { s with
    outgoingInvite := none
    outgoingInviteTimer := 15
    message := "Your invitation was declined. You can send another invite now." }

/-- The body of the outgoing-invite timer effect (App.jsx lines
730-749): with no outgoing invite the counter is pinned back to 15;
with an invite whose counter has reached 0 (`<= 0` in the source; the
counter is a natural number here) the invite is cleared, the counter
reset to 15 and the expiry message shown; otherwise a 1-second timeout
is scheduled and the state is unchanged. -/
def outgoingInviteEffect (s : InviteState) : InviteState :=
  if s.outgoingInvite.isNone then { s with outgoingInviteTimer := 15 }
  else if s.outgoingInviteTimer == 0 then
    { s with
      outgoingInvite := none
      outgoingInviteTimer := 15
      message := "Invitation expired. You can send another invite now." }
  else s

/-- The scheduled 1-second timeout firing: `setOutgoingInviteTimer(prev
=> prev - 1)`. -/
def outgoingTimerFire (s : InviteState) : InviteState :=
  { s with outgoingInviteTimer := s.outgoingInviteTimer - 1 }

/-- One elapsed second while an outgoing invite is outstanding: the
scheduled timeout fires (decrementing the counter) and the effect
re-runs on the new state, clearing the invite if the counter reached
zero. -/
def inviteSecond (s : InviteState) : InviteState :=
  outgoingInviteEffect (outgoingTimerFire s)

/-! ## Theorems -/

/-- Claim C2: every invocation of the reset control emits a `reset`
`timer_action` whose time is the full canonical duration for the
client's current mode (1500 s for pomodoro under the initial Classic
preset), never the partial remaining time: the emitted event is the
same whatever `timeRemaining` holds at the moment of the call. -/
theorem reset_emits_full_canonical_duration (s : TimerState) (room : String) :
    (handleReset s room).2.action = "reset" ∧
    (handleReset s room).2.time = getCurrentDuration s ∧
    (handleReset s room).2.mode = s.mode ∧
    (∀ t : Nat, (handleReset { s with timeRemaining := t } room).2 = (handleReset s room).2) ∧
    (handleReset initialTimerState room).2.time = 1500 :=
  ⟨rfl, rfl, rfl, fun _ => rfl, rfl⟩

/-- Claim C3: a received `timer_update` with action `reset` carrying a
non-null time `t` makes the receiver's remaining time exactly `t`
(whatever its local state was), stops the clock, and adopts the carried
mode when one is provided (keeping the local mode otherwise). -/
theorem reset_update_adopts_broadcast_state (s : TimerState) (t : Nat) (m : Option Mode) :
    (handleTimerUpdate { action := "reset", time := some t, mode := m } s).timeRemaining = t ∧
    (handleTimerUpdate { action := "reset", time := some t, mode := m } s).isRunning = false ∧
    (handleTimerUpdate { action := "reset", time := some t, mode := m } s).mode = m.getD s.mode :=
  ⟨rfl, rfl, rfl⟩

/-- Claim C4, counterexample: a received `start` carrying time 0 does
not seed the countdown from the broadcast value.  Starting from the
initial state (1500 s remaining), the handler leaves the remaining time
at 1500 rather than setting it to the carried 0, because the source's
`data.time || timeRemaining` treats 0 as absent. -/
theorem start_update_zero_time_keeps_local :
    (handleTimerUpdate { action := "start", time := some 0, mode := none }
        initialTimerState).timeRemaining ≠ 0 ∧
    (handleTimerUpdate { action := "start", time := some 0, mode := none }
        initialTimerState).timeRemaining = 1500 := by
  refine ⟨?_, rfl⟩
  decide

/-- Claim C4 as amended: a received `start` sets the running flag and,
when the carried time is nonzero, seeds the remaining time to exactly
that value; a carried time of 0 (or an absent one) is falsy in the
source's `data.time || timeRemaining` and the receiver keeps its local
remaining time instead. -/
theorem start_update_seeds_broadcast_time (s : TimerState) (t : Nat) (m : Option Mode) :
    (t ≠ 0 →
      (handleTimerUpdate { action := "start", time := some t, mode := m } s).timeRemaining = t) ∧
    (handleTimerUpdate { action := "start", time := some t, mode := m } s).isRunning = true ∧
    (handleTimerUpdate { action := "start", time := some 0, mode := m } s).timeRemaining
      = s.timeRemaining := by
  refine ⟨fun ht => ?_, rfl, rfl⟩
  simp [handleTimerUpdate, jsOrTime, ht]

/-- Witness for the amended C4 theorem at a concrete input. -/
theorem start_update_seeds_broadcast_time_witness :
    (handleTimerUpdate { action := "start", time := some 300, mode := none }
        initialTimerState).timeRemaining = 300 :=
  (start_update_seeds_broadcast_time initialTimerState 300 none).1 (by decide)

/-- Claim C5: the skip control emits a `skip` action with time 0; a
receiving client sets its remaining time to 0 with the running flag
true; and on such a state the countdown effect runs the local
completion branch (`timerComplete`, which counts the finished focus
interval and auto-advances the mode), so completion side effects are
computed locally from the zero-time signal. -/
theorem skip_forces_zero_and_local_completion (s : TimerState) (room : String)
    (t : Option Nat) (m : Option Mode) :
    (handleSkip s room).action = "skip" ∧
    (handleSkip s room).time = 0 ∧
    (handleTimerUpdate { action := "skip", time := t, mode := m } s).timeRemaining = 0 ∧
    (handleTimerUpdate { action := "skip", time := t, mode := m } s).isRunning = true ∧
    countdownStep (handleTimerUpdate { action := "skip", time := t, mode := m } s)
      = timerComplete (handleTimerUpdate { action := "skip", time := t, mode := m } s) :=
  ⟨rfl, rfl, rfl, rfl, rfl⟩

/-- Claim C6: the `receive_message` handler deduplicates by id: an
incoming message whose id equals the id of some listed message leaves
the list unchanged; an incoming message with a fresh id is appended
exactly once; and redelivering the same message is idempotent. -/
theorem receive_message_dedup_by_id (l : List ChatMessage) (m : ChatMessage) :
    ((∃ msg ∈ l, msg.id = m.id) → receiveMessage l m = l) ∧
    ((∀ msg ∈ l, msg.id ≠ m.id) → receiveMessage l m = l ++ [m]) ∧
    receiveMessage (receiveMessage l m) m = receiveMessage l m := by
  refine ⟨fun h => ?_, fun h => ?_, ?_⟩
  · have hany : l.any (fun msg => msg.id == m.id) = true := by
      obtain ⟨msg, hmem, hid⟩ := h
      exact List.any_eq_true.mpr ⟨msg, hmem, by simp [hid]⟩
    simp [receiveMessage, hany]
  · have hany : l.any (fun msg => msg.id == m.id) = false := by
      simp only [List.any_eq_false]
      intro msg hmem
      simp [h msg hmem]
    simp [receiveMessage, hany]
  · by_cases hany : l.any (fun msg => msg.id == m.id) = true
    · simp [receiveMessage, hany]
    · have hfalse : l.any (fun msg => msg.id == m.id) = false :=
        Bool.eq_false_iff.mpr hany
      simp [receiveMessage, hfalse, List.any_append]

/-- Witness for the C6 theorem: a redelivered id-1 message is dropped. -/
theorem receive_message_dedup_by_id_witness :
    receiveMessage [{ id := "1", sender := "A", text := "hi" }]
        { id := "1", sender := "B", text := "hi" }
      = [{ id := "1", sender := "A", text := "hi" }] :=
  (receive_message_dedup_by_id _ _).1
    ⟨{ id := "1", sender := "A", text := "hi" }, by simp, rfl⟩

/-- Claim C1 fails on the code: after sending "hello" (optimistic
insert with temporary id `temp_0`) and then receiving the server echo
of the same logical message (server id "1", same text), the sender's
list holds two visible messages with text "hello", not one — the
dedup is by id only, and the temporary id never matches the server id. -/
theorem optimistic_insert_plus_echo_yields_two_messages :
    (receiveMessage (handleSendMessage [] "hello" (some "room1") 0).1
        { id := "1", sender := "Alice", text := "hello" })
      = [{ id := "temp_0", sender := "You", text := "hello" },
         { id := "1", sender := "Alice", text := "hello" }] ∧
    ((receiveMessage (handleSendMessage [] "hello" (some "room1") 0).1
        { id := "1", sender := "Alice", text := "hello" }).filter
        (fun msg => msg.text == "hello")).length = 2 := by
  refine ⟨?_, ?_⟩ <;> decide

/-- Claim C7: with an outgoing invite already pending, a further
`handleSendInvite` call performs no invite request and changes neither
the pending invite nor its countdown, only setting the explicit
already-pending message. -/
theorem pending_invite_blocks_resend (s : InviteState) (inv : OutgoingInvite)
    (uid : Nat) (name : String) (ok : Bool) (err : String)
    (h : s.outgoingInvite = some inv) :
    (handleSendInvite s uid name ok err).requestSent = false ∧
    (handleSendInvite s uid name ok err).state.outgoingInvite = some inv ∧
    (handleSendInvite s uid name ok err).state.outgoingInviteTimer
      = s.outgoingInviteTimer ∧
    (handleSendInvite s uid name ok err).state.message = alreadyPendingMessage := by
  simp [handleSendInvite, h]

/-- Witness for the C7 theorem at a concrete pending state. -/
theorem pending_invite_blocks_resend_witness :
    (handleSendInvite
        { outgoingInvite := some { invitee_user_id := 2, invitee_name := "Bob" }
          outgoingInviteTimer := 7
          message := "" } 3 "Carol" true "").requestSent = false :=
  (pending_invite_blocks_resend _ { invitee_user_id := 2, invitee_name := "Bob" }
    3 "Carol" true "" rfl).1

/-- Helper for claim C8: from a pending invite with `k + 1` seconds on
the countdown, `k + 1` elapsed seconds clear the invite and reset the
countdown to 15 with the expiry message. -/
lemma inviteSecond_countdown (inv : OutgoingInvite) (msg : String) :
    ∀ k : Nat,
      inviteSecond^[k + 1]
        { outgoingInvite := some inv, outgoingInviteTimer := k + 1, message := msg }
      = { outgoingInvite := none, outgoingInviteTimer := 15,
          message := "Invitation expired. You can send another invite now." } := by
  intro k
  induction k with
  | zero =>
      simp [inviteSecond, outgoingTimerFire, outgoingInviteEffect]
  | succ n ih =>
      rw [Function.iterate_succ_apply]
      have hstep : inviteSecond
          { outgoingInvite := some inv, outgoingInviteTimer := n + 1 + 1, message := msg }
        = { outgoingInvite := some inv, outgoingInviteTimer := n + 1, message := msg } := by
        simp [inviteSecond, outgoingTimerFire, outgoingInviteEffect]
      rw [hstep, ih]

/-- Claim C8: an unanswered outgoing invitation expires after the 15
one-second countdown steps: the outgoing-invite state is cleared, the
countdown is back at 15, and a new `handleSendInvite` is no longer
blocked by the already-pending guard (the request is performed). -/
theorem outgoing_invite_expires_after_15_seconds (s : InviteState) (inv : OutgoingInvite)
    (hinv : s.outgoingInvite = some inv) (htimer : s.outgoingInviteTimer = 15) :
    (inviteSecond^[15] s).outgoingInvite = none ∧
    (inviteSecond^[15] s).outgoingInviteTimer = 15 ∧
    ∀ uid name ok err,
      (handleSendInvite (inviteSecond^[15] s) uid name ok err).requestSent = true := by
  obtain ⟨oi, t, msg⟩ := s
  simp only [InviteState.outgoingInvite, InviteState.outgoingInviteTimer] at hinv htimer
  subst hinv htimer
  have h : inviteSecond^[15]
      { outgoingInvite := some inv, outgoingInviteTimer := 15, message := msg }
    = { outgoingInvite := none, outgoingInviteTimer := 15,
        message := "Invitation expired. You can send another invite now." } :=
    inviteSecond_countdown inv msg 14
  rw [h]
  refine ⟨rfl, rfl, fun uid name ok err => ?_⟩
  cases ok <;> simp [handleSendInvite]

/-- Witness for the C8 theorem at a concrete pending state. -/
theorem outgoing_invite_expires_witness :
    (inviteSecond^[15]
        ({ outgoingInvite := some { invitee_user_id := 2, invitee_name := "Bob" }
           outgoingInviteTimer := 15
           message := "" } : InviteState)).outgoingInvite = none ∧
    (handleSendInvite
        (inviteSecond^[15]
          ({ outgoingInvite := some { invitee_user_id := 2, invitee_name := "Bob" }
             outgoingInviteTimer := 15
             message := "" } : InviteState)) 3 "Carol" true "").requestSent = true := by
  have h := outgoing_invite_expires_after_15_seconds
    { outgoingInvite := some { invitee_user_id := 2, invitee_name := "Bob" }
      outgoingInviteTimer := 15
      message := "" }
    { invitee_user_id := 2, invitee_name := "Bob" } rfl rfl
  exact ⟨h.1, h.2.2 3 "Carol" true ""⟩

/-- Claim C9: receiving `invite_declined` clears the pending outgoing
invite, resets its countdown to 15, and a new `handleSendInvite` is
not blocked by the already-pending guard (the request is performed
immediately). -/
theorem invite_declined_clears_pending (s : InviteState) (inv : OutgoingInvite)
    (h : s.outgoingInvite = some inv) :
    (inviteDeclinedHandler s).outgoingInvite = none ∧
    (inviteDeclinedHandler s).outgoingInviteTimer = 15 ∧
    ∀ uid name ok err,
      (handleSendInvite (inviteDeclinedHandler s) uid name ok err).requestSent = true := by
  refine ⟨rfl, rfl, fun uid name ok err => ?_⟩
  cases ok <;> simp [handleSendInvite, inviteDeclinedHandler]

/-- Witness for the C9 theorem at a concrete pending state. -/
theorem invite_declined_clears_pending_witness :
    (inviteDeclinedHandler
        { outgoingInvite := some { invitee_user_id := 2, invitee_name := "Bob" }
          outgoingInviteTimer := 9
          message := "" }).outgoingInvite = none ∧
    (handleSendInvite
        (inviteDeclinedHandler
          { outgoingInvite := some { invitee_user_id := 2, invitee_name := "Bob" }
            outgoingInviteTimer := 9
            message := "" }) 3 "Carol" true "").requestSent = true := by
  have h := invite_declined_clears_pending
    { outgoingInvite := some { invitee_user_id := 2, invitee_name := "Bob" }
      outgoingInviteTimer := 9
      message := "" }
    { invitee_user_id := 2, invitee_name := "Bob" } rfl
  exact ⟨h.1, h.2.2 3 "Carol" true ""⟩

/-- Claim C10: a completed focus interval with auto-start enabled
increments the completed-pomodoro count by exactly one and
auto-advances to the long break exactly when the new count is a
multiple of 4, and to the short break otherwise. -/
theorem pomodoro_completion_counts_and_advances (s : TimerState)
    (hmode : s.mode = Mode.pomodoro) (hauto : s.autoStartBreaks = true) :
    (timerComplete s).pomodoroCount = s.pomodoroCount + 1 ∧
    (timerComplete s).mode
      = (if (s.pomodoroCount + 1) % 4 = 0 then Mode.long else Mode.short) := by
  by_cases h4 : (s.pomodoroCount + 1) % 4 = 0 <;>
    simp [timerComplete, hmode, hauto, handleSetModeSilent, h4]

/-- Witness for the C10 theorem: completing the first pomodoro from the
initial state advances to the short break with count 1. -/
theorem pomodoro_completion_counts_and_advances_witness :
    (timerComplete initialTimerState).pomodoroCount = 1 ∧
    (timerComplete initialTimerState).mode = Mode.short := by
  have h := pomodoro_completion_counts_and_advances initialTimerState rfl rfl
  simpa using h

end FocusSphere
